import Mathlib

/-!
Verification development for the jami-rs D-Bus client binding
(src/src/lib.rs). The Rust code is shallowly embedded: pure data
manipulation becomes Lean functions, D-Bus method calls become an
explicit `Option`/`Except` call-result parameter supplied by the
environment, and the signal-subscription/poll-loop control flow of
`handle_events` becomes an explicit step model over a list of signal
names, a registration oracle and a stop-flag trace.

Machine integers carry no arithmetic in this code except the single
`status as u64` cast, so `u32`/`u64` fields are modelled as `Nat`,
`i32`/`i64` fields as `Int`, and the cast is modelled explicitly as
reduction modulo 2^64.
-/

/-- The typed event union emitted by the signal decoders
(`enum Event<I>` in src/src/lib.rs, lines 27-46). `HashMap<String,String>`
is modelled as an association list, `Vec<u8>` as `List Nat`. -/
inductive Event (I : Type) where
  | Input : I → Event I
  | Message : String → String → List (String × String) → Event I
  | ConversationReady : String → String → Event I
  | ConversationRemoved : String → String → Event I
  | ConversationRequest : String → String → Event I
  | RegistrationStateChanged : String → String → Event I
  | ProfileReceived : String → String → String → Event I
  | RegisteredNameFound : String → Nat → String → String → Event I
  | AccountsChanged : Event I
  | ConversationLoaded : Nat → String → String → List (List (String × String)) → Event I
  | DataTransferEvent : String → String → Nat → Int → Event I
  | IncomingTrustRequest : String → String → List Nat → Nat → Event I
  | Resize : Event I

/-- The import type selector for account creation
(`enum ImportType` in src/src/lib.rs, lines 48-53). -/
inductive ImportType where
  | None : ImportType
  | BACKUP : ImportType
  | NETWORK : ImportType
deriving DecidableEq

/-- The 11-field transfer-info record (`struct DataTransferInfo` in
src/src/lib.rs, lines 55-67): `u32` fields as `Nat`, `i64` fields as
`Int`. -/
structure DataTransferInfo where
  account_id : String
  last_event : Nat
  flags : Nat
  total : Int
  bytes_progress : Int
  author : String
  peer : String
  conv_id : String
  display_name : String
  path : String
  mimetype : String
deriving DecidableEq

/-- The record-to-tuple transformation (`DataTransferInfo::tuple` in
src/src/lib.rs, lines 70-72): the 11 fields in the source's positional
order. -/
def DataTransferInfo.tuple (i : DataTransferInfo) :
    String × Nat × Nat × Int × Int × String × String × String × String × String × String :=
  (i.account_id, i.last_event, i.flags, i.total, i.bytes_progress, i.author,
   i.peer, i.conv_id, i.display_name, i.path, i.mimetype)

/-- The tuple-to-record transformation (`DataTransferInfo::from_tuple` in
src/src/lib.rs, lines 74-88): positional components 0..10 assigned back to
the fields in declaration order. -/
def DataTransferInfo.from_tuple
    (info : String × Nat × Nat × Int × Int × String × String × String × String × String × String) :
    DataTransferInfo :=
  match info with
  | (a, le, fl, t, bp, au, pe, cid, dn, pa, mt) =>
    { account_id := a
      last_event := le
      flags := fl
      total := t
      bytes_progress := bp
      author := au
      peer := pe
      conv_id := cid
      display_name := dn
      path := pa
      mimetype := mt }

/-- C1: for every `DataTransferInfo` record `r`, `from_tuple (tuple r)`
equals `r` field-for-field — the two transformations are exact inverses,
for all field values including zero and negative `total` and
`bytes_progress`. -/
theorem from_tuple_tuple_roundtrip_C1 (r : DataTransferInfo) :
    DataTransferInfo.from_tuple r.tuple = r := rfl

/-- C2: `DataTransferInfo.tuple` lists the 11 fields in exactly the
documented order — account id, last-event code, status flags, total size,
bytes transferred, author id, peer id, conversation id, display name,
local path, MIME type — and `DataTransferInfo.from_tuple` assigns the 11
positional components back to the record fields in that same order. -/
theorem tuple_field_order_C2 :
    (∀ (a : String) (le fl : Nat) (t bp : Int) (au pe cid dn pa mt : String),
      DataTransferInfo.tuple
        { account_id := a, last_event := le, flags := fl, total := t,
          bytes_progress := bp, author := au, peer := pe, conv_id := cid,
          display_name := dn, path := pa, mimetype := mt }
        = (a, le, fl, t, bp, au, pe, cid, dn, pa, mt)) ∧
    (∀ (a : String) (le fl : Nat) (t bp : Int) (au pe cid dn pa mt : String),
      DataTransferInfo.from_tuple (a, le, fl, t, bp, au, pe, cid, dn, pa, mt)
        = { account_id := a, last_event := le, flags := fl, total := t,
            bytes_progress := bp, author := au, peer := pe, conv_id := cid,
            display_name := dn, path := pa, mimetype := mt }) :=
  ⟨fun _ _ _ _ _ _ _ _ _ _ _ => rfl, fun _ _ _ _ _ _ _ _ _ _ _ => rfl⟩

/-- The Rust cast `status as u64` applied to an `i32` value: two's
complement reinterpretation, i.e. reduction modulo 2^64
(src/src/lib.rs, line 231). -/
def i32_as_u64 (s : Int) : Nat := (s % (2 : Int) ^ 64).toNat

/-- Reinterpretation of a `u64` value as a signed two's-complement
64-bit integer; this is the (spec-side) recovery function available to a
consumer of the emitted status field. -/
def recoverSigned64 (u : Nat) : Int :=
  if u < 2 ^ 63 then (u : Int) else (u : Int) - 2 ^ 64

/-- The registeredNameFound signal callback (src/src/lib.rs, lines
223-239): given the wire payload (account id, signed i32 status, address,
name) it enqueues exactly one event, `RegisteredNameFound` with the status
widened by `status as u64`. The returned list is the list of events the
callback sends on the channel. -/
def registeredNameFound_cb (I : Type) (account_id : String) (status : Int)
    (address name : String) : List (Event I) :=
  [Event.RegisteredNameFound account_id (i32_as_u64 status) address name]

/-- The dataTransferEvent signal callback (src/src/lib.rs, lines
296-318): given the wire payload (account id, conversation id, u64
transfer id, i32 status code) it enqueues exactly one event,
`DataTransferEvent`, with all four fields copied unchanged. The returned
list is the list of events the callback sends on the channel. -/
def dataTransferEvent_cb (I : Type) (account_id conversation_id : String)
    (id : Nat) (code : Int) : List (Event I) :=
  [Event.DataTransferEvent account_id conversation_id id code]

/-- C4: the registeredNameFound decoder widens the signed `i32` wire
status to the unsigned `u64` event field by `status as u64`; for the
whole i32 range the original value is recoverable by two's-complement
reinterpretation (`recoverSigned64`), non-negative statuses are carried
without any change of value, and wire status `-1` becomes `2^64 - 1`,
which is not zero — no silent clamping. -/
theorem registeredNameFound_status_widening_C4 (s : Int)
    (h1 : -(2 ^ 31) ≤ s) (h2 : s < 2 ^ 31) :
    (∀ a addr n, registeredNameFound_cb Unit a s addr n
      = [Event.RegisteredNameFound a (i32_as_u64 s) addr n]) ∧
    recoverSigned64 (i32_as_u64 s) = s ∧
    (0 ≤ s → (i32_as_u64 s : Int) = s) ∧
    i32_as_u64 (-1) = 2 ^ 64 - 1 ∧
    i32_as_u64 (-1) ≠ 0 := by
  refine ⟨fun _ _ _ => rfl, ?_, ?_, by decide, by decide⟩
  · unfold recoverSigned64 i32_as_u64
    have hp64 : (2 : Int) ^ 64 = 18446744073709551616 := by norm_num
    have hp63 : (2 : Nat) ^ 63 = 9223372036854775808 := by norm_num
    have hp31 : (2 : Int) ^ 31 = 2147483648 := by norm_num
    rw [hp64, hp63]
    rw [hp64, hp31] at *
    omega
  · intro h0
    unfold i32_as_u64
    have hp64 : (2 : Int) ^ 64 = 18446744073709551616 := by norm_num
    have hp31 : (2 : Int) ^ 31 = 2147483648 := by norm_num
    rw [hp64]
    rw [hp31] at h2
    omega

/-- Witness for C4 at the concrete wire status `-1`. -/
theorem registeredNameFound_status_widening_C4_witness :
    (∀ a addr n, registeredNameFound_cb Unit a (-1) addr n
      = [Event.RegisteredNameFound a (i32_as_u64 (-1)) addr n]) ∧
    recoverSigned64 (i32_as_u64 (-1)) = -1 ∧
    (0 ≤ (-1 : Int) → (i32_as_u64 (-1) : Int) = -1) ∧
    i32_as_u64 (-1) = 2 ^ 64 - 1 ∧
    i32_as_u64 (-1) ≠ 0 :=
  registeredNameFound_status_widening_C4 (-1) (by decide) (by decide)

/-- C5: for every dataTransferEvent payload the decoder enqueues exactly
one event, `DataTransferEvent` with all four fields faithfully copied and
no other variant; in particular the payload ("a1", "c1", 42, 3) yields
exactly `DataTransferEvent "a1" "c1" 42 3`. -/
theorem dataTransferEvent_decode_C5 :
    (∀ (I : Type) (a c : String) (i : Nat) (k : Int),
      dataTransferEvent_cb I a c i k = [Event.DataTransferEvent a c i k]) ∧
    dataTransferEvent_cb Unit "a1" "c1" 42 3
      = [Event.DataTransferEvent "a1" "c1" 42 3] :=
  ⟨fun _ _ _ _ _ => rfl, rfl⟩

/-- The sixteen characters of the literal "0123456789abcdef" searched by
`Jami::is_hash` (src/src/lib.rs, line 390). -/
def hexChars : List Char := "0123456789abcdef".toList

/-- The hash check `Jami::is_hash` (src/src/lib.rs, lines 385-395): the
string (modelled as its list of bytes-as-chars) must be exactly 40 bytes
long and every byte must occur in "0123456789abcdef". -/
def is_hash (s : List Char) : Bool :=
  if s.length != 40 then false
  else s.all (fun c => hexChars.contains c)

/-- C9: `is_hash` returns true iff its argument is exactly 40 bytes long
and every byte is one of the ASCII characters 0-9 or a-f; any string
containing an uppercase hex digit A-F is rejected, as is any string of
length other than 40. -/
theorem is_hash_spec_C9 (s : List Char) :
    (is_hash s = true ↔ (s.length = 40 ∧ ∀ c ∈ s, c ∈ hexChars)) ∧
    (∀ c ∈ s, 'A' ≤ c → c ≤ 'F' → is_hash s = false) ∧
    (s.length ≠ 40 → is_hash s = false) := by
  have hmain : is_hash s = true ↔ (s.length = 40 ∧ ∀ c ∈ s, c ∈ hexChars) := by
    unfold is_hash
    rcases Nat.decEq s.length 40 with h | h
    · simp [h, List.all_eq_true]
    · simp [h, List.all_eq_true]
  refine ⟨hmain, ?_, ?_⟩
  · intro c hc hA hF
    cases hh : is_hash s with
    | false => rfl
    | true =>
      have hmem : c ∈ hexChars := (hmain.mp hh).2 c hc
      have hall : ∀ x ∈ hexChars, ¬('A' ≤ x ∧ x ≤ 'F') := by decide
      exact absurd ⟨hA, hF⟩ (hall c hmem)
  · intro hlen
    cases hh : is_hash s with
    | false => rfl
    | true => exact absurd (hmain.mp hh).1 hlen

/-- Witness for C9 at a concrete input: the 40-character all-lowercase
string aaa...a. -/
theorem is_hash_spec_C9_witness :
    (is_hash (List.replicate 40 'a') = true ↔
      ((List.replicate 40 'a').length = 40 ∧ ∀ c ∈ List.replicate 40 'a', c ∈ hexChars)) ∧
    (∀ c ∈ List.replicate 40 'a', 'A' ≤ c → c ≤ 'F' →
      is_hash (List.replicate 40 'a') = false) ∧
    ((List.replicate 40 'a').length ≠ 40 → is_hash (List.replicate 40 'a') = false) :=
  is_hash_spec_C9 (List.replicate 40 'a')

/-- Modelled from the spec: the repository's `account` module (struct
`Account` with its `Account::null()` constructor) is declared in
src/src/lib.rs (`use account::Account`) but its file is not under src/.
Its fields are reconstructed from their uses in src/src/lib.rs
(`id`, `alias`, `hash`, `registered_name` as strings, `enabled` as a
boolean), matching the spec's out-of-scope account collaborator. -/
structure Account where
  id : String
  aliasName : String
  hash : String
  registered_name : String
  enabled : Bool
deriving DecidableEq

/-- Modelled from the spec: `Account::null()`, the default account value
returned when no usable account exists — empty fields, disabled. -/
def Account.null : Account :=
  { id := "", aliasName := "", hash := "", registered_name := "", enabled := false }

namespace Jami

/-- The facade `Jami::lookup_name` (src/src/lib.rs, lines 338-355): one
synchronous call whose result is the `callResult` parameter; on success
the decoded boolean is returned, on failure `false`. -/
def lookup_name (account name_service name : String) (callResult : Option Bool) : Bool :=
  match callResult with
  | some ok => ok
  | none => false

/-- The facade `Jami::lookup_address` (src/src/lib.rs, lines 364-381):
returns the decoded boolean, or `false` on call failure. -/
def lookup_address (account name_service address : String) (callResult : Option Bool) : Bool :=
  match callResult with
  | some ok => ok
  | none => false

/-- The facade `Jami::add_account` (src/src/lib.rs, lines 403-432): it
builds the details map from the import type, performs one addAccount
call, and returns the new account id, or the empty string on call
failure. -/
def add_account (main_info password : String) (import_type : ImportType)
    (callResult : Option String) : String :=
  let details : List (String × String) :=
    (match import_type with
      | ImportType.BACKUP => [("Account.archivePath", main_info)]
      | ImportType.NETWORK => [("Account.archivePin", main_info)]
      | ImportType.None => [("Account.alias", main_info)])
    ++ [("Account.type", "RING"), ("Account.archivePassword", password)]
  match callResult with
  | some newId => newId
  | none => ""

/-- The facade `Jami::get_account_list` (src/src/lib.rs, lines 438-456):
on failure of the getAccountList call it returns the empty vector;
on success it maps each returned id through `Jami::get_account`,
represented here by the oracle `getAcc`. -/
def get_account_list (callResult : Option (List String)) (getAcc : String → Account) :
    List Account :=
  match callResult with
  | none => []
  | some accounts => accounts.map getAcc

/-- The facade `Jami::get_account_details` (src/src/lib.rs, lines
523-541): returns the decoded detail map, or the empty map on call
failure. -/
def get_account_details (id : String) (callResult : Option (List (String × String))) :
    List (String × String) :=
  match callResult with
  | some details => details
  | none => []

/-- The facade `Jami::get_trust_requests` (src/src/lib.rs, lines
583-605): on success, collects the "from" entry of every trust request
map having one; on call failure the accumulator stays empty. -/
def get_trust_requests (id : String)
    (callResult : Option (List (List (String × String)))) : List String :=
  match callResult with
  | none => []
  | some trs => trs.filterMap (fun tr => tr.lookup "from")

/-- The facade `Jami::accept_trust_request` (src/src/lib.rs, lines
633-650): returns the decoded boolean, or `false` on call failure. -/
def accept_trust_request (id fromUri : String) (callResult : Option Bool) : Bool :=
  match callResult with
  | some ok => ok
  | none => false

/-- The facade `Jami::get_members` (src/src/lib.rs, lines 683-701):
returns the decoded member maps, or the empty vector on call failure. -/
def get_members (id convid : String)
    (callResult : Option (List (List (String × String)))) :
    List (List (String × String)) :=
  match callResult with
  | some members => members
  | none => []

/-- The facade `Jami::start_conversation` (src/src/lib.rs, lines
753-771): returns the decoded conversation id, or the empty string on
call failure. -/
def start_conversation (id : String) (callResult : Option String) : String :=
  match callResult with
  | some conv => conv
  | none => ""

/-- The facade `Jami::load_conversation` (src/src/lib.rs, lines
869-891): returns the decoded request id, or `0` on call failure. -/
def load_conversation (account conversation fromCommit : String) (size : Nat)
    (callResult : Option Nat) : Nat :=
  match callResult with
  | some rid => rid
  | none => 0

/-- The facade `Jami::rm_conversation` (src/src/lib.rs, lines 899-916):
returns the decoded boolean, or `false` on call failure. -/
def rm_conversation (id conv_id : String) (callResult : Option Bool) : Bool :=
  match callResult with
  | some ok => ok
  | none => false

/-- The facade `Jami::send_conversation_message` (src/src/lib.rs, lines
965-986): returns the decoded message id, or `0` on call failure. -/
def send_conversation_message (id conv_id message parent : String)
    (callResult : Option Nat) : Nat :=
  match callResult with
  | some mid => mid
  | none => 0

/-- The for-loop of `Jami::select_jami_account` (src/src/lib.rs, lines
100-104): returns the first account whose `enabled` field is true. -/
def selectFirstEnabled : List Account → Option Account
  | [] => none
  | a :: rest => if a.enabled then some a else selectFirstEnabled rest

/-- The selector `Jami::select_jami_account` (src/src/lib.rs, lines
97-110), with the account list obtained from `get_account_list` passed
explicitly: returns the first enabled account; otherwise, when
`create_if_not` is set it fires an `add_account` call whose result is
discarded, and in either case returns `Account.null`. -/
def select_jami_account (accounts : List Account) (create_if_not : Bool) : Account :=
  match selectFirstEnabled accounts with
  | some account => account
  | none =>
    let _created :=
      if create_if_not then some (add_account "" "" ImportType.None none) else none
    Account.null

/-- The facade `Jami::send_file` (src/src/lib.rs, lines 995-1022): it
builds a `DataTransferInfo` from the arguments, binds the local constant
`id = 0`, performs one sendFile call whose result is discarded, and
returns `id`. -/
def send_file (account_id conv_id path : String) (callResult : Option Unit) : Nat :=
  let info : DataTransferInfo :=
    { account_id := account_id, last_event := 0, flags := 0, total := 0,
      bytes_progress := 0, author := "", peer := "", conv_id := conv_id,
      display_name := "", path := path, mimetype := "" }
  let id : Nat := 0
  let _sent := (info.tuple, id, callResult)
  id

/-- The facade `Jami::get_account` (src/src/lib.rs, lines 463-501): on
failure of the getAccountDetails call it returns `Account.null`; on
success it starts from `Account.null` with the requested id and folds
over the detail entries, setting `enabled`, `aliasName`, `hash` (with the
ring: scheme stripped) and `registered_name` from the matching keys. -/
def get_account (id : String) (callResult : Option (List (String × String))) : Account :=
  match callResult with
  | none => Account.null
  | some details =>
    let base : Account := { Account.null with id := id }
    details.foldl (fun account kv =>
      let account :=
        if kv.1 == "Account.enable" then { account with enabled := kv.2 == "true" } else account
      let account :=
        if kv.1 == "Account.alias" then { account with aliasName := kv.2 } else account
      let account :=
        if kv.1 == "Account.username" then
          { account with hash := kv.2.replace "ring:" "" }
        else account
      if kv.1 == "Account.registeredName" then
        { account with registered_name := kv.2 }
      else account) base

/-- The facade `Jami::rm_account` (src/src/lib.rs, lines 507-516): the
removeAccount call result is discarded; nothing is returned. -/
def rm_account (id : String) (callResult : Option Unit) : Unit := ()

/-- The facade `Jami::set_account_details` (src/src/lib.rs, lines
548-560): the setAccountDetails call result is discarded; nothing is
returned. -/
def set_account_details (id : String) (details : List (String × String))
    (callResult : Option Unit) : Unit := ()

/-- The facade `Jami::add_contact` (src/src/lib.rs, lines 567-576): the
addContact call result is discarded; nothing is returned. -/
def add_contact (id uri : String) (callResult : Option Unit) : Unit := ()

/-- The facade `Jami::send_trust_request` (src/src/lib.rs, lines
613-625): the sendTrustRequest call result is discarded; nothing is
returned. -/
def send_trust_request (id toUri : String) (payloads : List Nat)
    (callResult : Option Unit) : Unit := ()

/-- The facade `Jami::discard_trust_request` (src/src/lib.rs, lines
658-675): returns the decoded boolean, or `false` on call failure. -/
def discard_trust_request (id fromUri : String) (callResult : Option Bool) : Bool :=
  match callResult with
  | some ok => ok
  | none => false

/-- The facade `Jami::get_conversation_infos` (src/src/lib.rs, lines
709-727): returns the decoded info map, or the empty map on call
failure. -/
def get_conversation_infos (id convid : String)
    (callResult : Option (List (String × String))) : List (String × String) :=
  match callResult with
  | some infos => infos
  | none => []

/-- The facade `Jami::update_conversation_infos` (src/src/lib.rs, lines
735-747): the updateConversationInfos call result is discarded; nothing
is returned. -/
def update_conversation_infos (id convid : String)
    (infos : List (String × String)) (callResult : Option Unit) : Unit := ()

/-- The facade `Jami::get_conversations` (src/src/lib.rs, lines
778-796): returns the decoded conversation id list, or the empty vector
on call failure. -/
def get_conversations (id : String) (callResult : Option (List String)) : List String :=
  match callResult with
  | some convs => convs
  | none => []

/-- The facade `Jami::get_conversations_requests` (src/src/lib.rs, lines
803-821): returns the decoded request maps, or the empty vector on call
failure. -/
def get_conversations_requests (id : String)
    (callResult : Option (List (List (String × String)))) :
    List (List (String × String)) :=
  match callResult with
  | some reqs => reqs
  | none => []

/-- The facade `Jami::decline_request` (src/src/lib.rs, lines 828-840):
the declineConversationRequest call result is discarded; nothing is
returned. -/
def decline_request (id conv_id : String) (callResult : Option Unit) : Unit := ()

/-- The facade `Jami::accept_request` (src/src/lib.rs, lines 847-859):
the acceptConversationRequest call result is discarded; nothing is
returned. -/
def accept_request (id conv_id : String) (callResult : Option Unit) : Unit := ()

/-- The facade `Jami::add_conversation_member` (src/src/lib.rs, lines
924-936): the addConversationMember call result is discarded; nothing is
returned. -/
def add_conversation_member (id conv_id hash : String)
    (callResult : Option Unit) : Unit := ()

/-- The facade `Jami::rm_conversation_member` (src/src/lib.rs, lines
944-956): the rmConversationMember call result is discarded; nothing is
returned. -/
def rm_conversation_member (id conv_id hash : String)
    (callResult : Option Unit) : Unit := ()

/-- The facade `Jami::accept_file_transfer` (src/src/lib.rs, lines
1032-1053): returns the decoded status code, or `0` on call failure. -/
def accept_file_transfer (id conv_id : String) (tid : Nat) (path : String)
    (callResult : Option Nat) : Nat :=
  match callResult with
  | some code => code
  | none => 0

/-- The facade `Jami::cancel_file_transfer` (src/src/lib.rs, lines
1062-1082): returns the decoded status code, or `0` on call failure. -/
def cancel_file_transfer (id conv_id : String) (tid : Nat)
    (callResult : Option Nat) : Nat :=
  match callResult with
  | some code => code
  | none => 0

/-- The facade `Jami::data_transfer_info` (src/src/lib.rs, lines
1091-1125): it sends a blank `DataTransferInfo` tuple with the request,
and returns `some (from_tuple t)` for the tuple `t` in a successful
reply, or `None` on call failure. -/
def data_transfer_info (account_id conv_id : String) (tid : Nat)
    (callResult : Option (Nat ×
      (String × Nat × Nat × Int × Int × String × String × String × String × String × String))) :
    Option DataTransferInfo :=
  let info : DataTransferInfo :=
    { account_id := "", last_event := 0, flags := 0, total := 0,
      bytes_progress := 0, author := "", peer := "", conv_id := "",
      display_name := "", path := "", mimetype := "" }
  let _args := (account_id, conv_id, tid, info.tuple)
  match callResult with
  | some result => some (DataTransferInfo.from_tuple result.2)
  | none => none

end Jami

/-- C7: every Remote Procedure Facade function, when its single
synchronous daemon call fails (call result `none`), returns its
documented default/empty value — `false`, `0`, the empty string, the
empty map, the empty vector, `Account.null`, `None`, or unit for the
fire-and-forget calls — and, by its return type, never propagates the
underlying transport error to the caller. -/
theorem facade_failure_defaults_C7 :
    (∀ a ns n, Jami.lookup_name a ns n none = false) ∧
    (∀ a ns addr, Jami.lookup_address a ns addr none = false) ∧
    (∀ mi pw it, Jami.add_account mi pw it none = "") ∧
    (∀ g, Jami.get_account_list none g = []) ∧
    (∀ i, Jami.get_account i none = Account.null) ∧
    (∀ i, Jami.get_account_details i none = []) ∧
    (∀ i, Jami.get_trust_requests i none = []) ∧
    (∀ i f, Jami.accept_trust_request i f none = false) ∧
    (∀ i f, Jami.discard_trust_request i f none = false) ∧
    (∀ i cv, Jami.get_members i cv none = []) ∧
    (∀ i cv, Jami.get_conversation_infos i cv none = []) ∧
    (∀ i, Jami.start_conversation i none = "") ∧
    (∀ i, Jami.get_conversations i none = []) ∧
    (∀ i, Jami.get_conversations_requests i none = []) ∧
    (∀ a cv f sz, Jami.load_conversation a cv f sz none = 0) ∧
    (∀ i cv, Jami.rm_conversation i cv none = false) ∧
    (∀ i cv m p, Jami.send_conversation_message i cv m p none = 0) ∧
    (∀ a cv p, Jami.send_file a cv p none = 0) ∧
    (∀ i cv t p, Jami.accept_file_transfer i cv t p none = 0) ∧
    (∀ i cv t, Jami.cancel_file_transfer i cv t none = 0) ∧
    (∀ a cv t, Jami.data_transfer_info a cv t none = none) ∧
    (∀ i, Jami.rm_account i none = ()) ∧
    (∀ i d, Jami.set_account_details i d none = ()) ∧
    (∀ i u, Jami.add_contact i u none = ()) ∧
    (∀ i t p, Jami.send_trust_request i t p none = ()) ∧
    (∀ i cv inf, Jami.update_conversation_infos i cv inf none = ()) ∧
    (∀ i cv, Jami.decline_request i cv none = ()) ∧
    (∀ i cv, Jami.accept_request i cv none = ()) ∧
    (∀ i cv h, Jami.add_conversation_member i cv h none = ()) ∧
    (∀ i cv h, Jami.rm_conversation_member i cv h none = ()) :=
  ⟨fun _ _ _ => rfl, fun _ _ _ => rfl, fun _ _ _ => rfl, fun _ => rfl,
   fun _ => rfl, fun _ => rfl, fun _ => rfl, fun _ _ => rfl,
   fun _ _ => rfl, fun _ _ => rfl, fun _ _ => rfl, fun _ => rfl,
   fun _ => rfl, fun _ => rfl, fun _ _ _ _ => rfl, fun _ _ => rfl,
   fun _ _ _ _ => rfl, fun _ _ _ => rfl, fun _ _ _ _ => rfl,
   fun _ _ _ => rfl, fun _ _ _ => rfl, fun _ => rfl, fun _ _ => rfl,
   fun _ _ => rfl, fun _ _ _ => rfl, fun _ _ _ => rfl, fun _ _ => rfl,
   fun _ _ => rfl, fun _ _ _ => rfl, fun _ _ _ => rfl⟩

/-- Helper: the selection loop agrees with `List.find?` on the enabled
predicate. -/
theorem selectFirstEnabled_eq_find (accounts : List Account) :
    Jami.selectFirstEnabled accounts = accounts.find? (fun a => a.enabled) := by
  induction accounts with
  | nil => rfl
  | cons a rest ih =>
    simp only [Jami.selectFirstEnabled, List.find?]
    cases a.enabled with
    | false => simpa using ih
    | true => rfl

/-- C8: `select_jami_account` returns the first account of the list whose
`enabled` field is true, and when no enabled account exists it returns
`Account.null` — identically for `create_if_not = true` and `false`, so
the account freshly created by the discarded `add_account` call is never
the return value of the same call. -/
theorem select_jami_account_C8 (accounts : List Account) (c : Bool) :
    Jami.select_jami_account accounts c
      = (accounts.find? (fun a => a.enabled)).getD Account.null ∧
    Jami.select_jami_account accounts true
      = Jami.select_jami_account accounts false := by
  constructor
  · unfold Jami.select_jami_account
    rw [selectFirstEnabled_eq_find]
    cases accounts.find? (fun a => a.enabled) <;> rfl
  · unfold Jami.select_jami_account
    cases Jami.selectFirstEnabled accounts <;> rfl

/-- C10: `send_file` returns `0` for every input and every call outcome:
the returned transfer id is the local constant `id = 0`, never a
daemon-assigned id. -/
theorem send_file_returns_zero_C10 (account_id conv_id path : String)
    (callResult : Option Unit) :
    Jami.send_file account_id conv_id path callResult = 0 := rfl

/-- The daemon signal names subscribed to by `Jami::handle_events`
(src/src/lib.rs, lines 127-318), in source order: one `add_match` call
per name on the interface cx.ring.Ring.ConfigurationManager. -/
def signalNames : List String :=
  ["accountsChanged", "messageReceived", "registrationStateChanged",
   "conversationReady", "conversationRemoved", "conversationRequestReceived",
   "registeredNameFound", "profileReceived", "incomingTrustRequest",
   "conversationLoaded", "dataTransferEvent"]

/-- Registration of a list of subscriptions, one after another. Each
`conn.add_match(mr).await.ok().expect("Lost connection")` in the source
panics at the first failing registration; the panic is modelled as
`Except.error` carrying the failing signal name, and success returns the
list of registered names. `regOk` is the oracle saying which
registrations the bus accepts. -/
def registerAllGo (regOk : String → Bool) : List String → Except String (List String)
  | [] => Except.ok []
  | s :: rest =>
    if regOk s then
      match registerAllGo regOk rest with
      | Except.ok l => Except.ok (s :: l)
      | Except.error e => Except.error e
    else Except.error s

/-- The whole registration phase of `Jami::handle_events`: all signal
names of `signalNames`, in order. -/
def registerAll (regOk : String → Bool) : Except String (List String) :=
  registerAllGo regOk signalNames

/-- The stop-flag poll loop of `Jami::handle_events` (src/src/lib.rs,
lines 320-328): at every iteration it sleeps one 10 ms interval and then
reads the stop flag; it breaks at the first read that returns true. The
flag is modelled as a trace `stop : Nat → Bool` of its value at each
poll, `fuel` bounds how many polls we observe, and the result is the
index of the poll at which the loop exited, or `none` if the flag was
never seen true within `fuel` polls (the loop is still running). -/
def pollLoop (stop : Nat → Bool) : Nat → Nat → Option Nat
  | _, 0 => none
  | i, fuel + 1 => if stop i then some i else pollLoop stop (i + 1) fuel

/-- The control flow of `Jami::handle_events` (src/src/lib.rs, lines
115-329): register every subscription of `signalNames` (any failure is a
fatal panic before the loop is ever entered — `Except.error`), then poll
the stop flag until it is set, then return `Ok(())`. The `Option` in the
success payload distinguishes the returned state (`some subs`: the loop
exited after the registered subscriptions `subs`, the function returned
`Ok(())`) from the still-listening state within the observed window
(`none`). No registration happens after the loop starts: the
subscription list in the result is exactly the one fixed before it. -/
def handle_events (regOk : String → Bool) (stop : Nat → Bool) (fuel : Nat) :
    Except String (Option (List String)) :=
  match registerAll regOk with
  | Except.error e => Except.error e
  | Except.ok subs =>
    match pollLoop stop 0 fuel with
    | some _ => Except.ok (some subs)
    | none => Except.ok none

/-- Helper: when every registration is accepted, the registration phase
succeeds and registers the whole list. -/
theorem registerAllGo_ok (regOk : String → Bool) (l : List String)
    (h : l.all regOk = true) : registerAllGo regOk l = Except.ok l := by
  induction l with
  | nil => rfl
  | cons s rest ih =>
    simp only [List.all_cons, Bool.and_eq_true] at h
    simp only [registerAllGo, h.1, if_true, ih h.2]

/-- Helper: when some registration is refused, the registration phase
ends in a panic (`Except.error`). -/
theorem registerAllGo_error (regOk : String → Bool) (l : List String)
    (h : l.all regOk = false) : ∃ e, registerAllGo regOk l = Except.error e := by
  induction l with
  | nil => simp [List.all_nil] at h
  | cons s rest ih =>
    simp only [List.all_cons, Bool.and_eq_false_iff] at h
    by_cases hs : regOk s = true
    · rcases h with h | h
      · rw [hs] at h; cases h
      · rcases ih h with ⟨e, he⟩
        refine ⟨e, ?_⟩
        simp only [registerAllGo, hs, if_true, he]
    · refine ⟨s, ?_⟩
      simp only [registerAllGo, Bool.of_not_eq_true hs, Bool.false_eq_true, if_false]

/-- Counterexample to C3 as stated: `handle_events` does not register
twelve signal subscriptions — the subscription list has eleven entries. -/
theorem handle_events_twelve_counterexample_C3 : ¬ (signalNames.length = 12) := by
  decide

/-- C3 (amended): `handle_events` registers exactly eleven signal
subscriptions, one per daemon signal name; when the bus accepts them all
the registration phase wires exactly that list, and if any registration
fails the whole startup fails fatally (`Except.error`, the source's
`expect` panic) — there is no state in which only some of the
subscriptions are wired and the function continues listening. -/
theorem handle_events_subscriptions_C3 :
    signalNames.length = 11 ∧
    (∀ regOk, signalNames.all regOk = true → registerAll regOk = Except.ok signalNames) ∧
    (∀ regOk stop fuel, signalNames.all regOk = false →
      ∃ e, handle_events regOk stop fuel = Except.error e) := by
  refine ⟨by decide, fun regOk h => registerAllGo_ok regOk signalNames h, ?_⟩
  intro regOk stop fuel h
  rcases registerAllGo_error regOk signalNames h with ⟨e, he⟩
  exact ⟨e, by simp only [handle_events, registerAll, he]⟩

/-- Witness for C3 (amended) at concrete oracles: the all-accepting
oracle registers the full list, the all-refusing oracle makes startup
fail fatally. -/
theorem handle_events_subscriptions_C3_witness :
    signalNames.length = 11 ∧
    registerAll (fun _ => true) = Except.ok signalNames ∧
    ∃ e, handle_events (fun _ => false) (fun _ => false) 3 = Except.error e :=
  ⟨handle_events_subscriptions_C3.1,
   handle_events_subscriptions_C3.2.1 (fun _ => true) rfl,
   handle_events_subscriptions_C3.2.2 (fun _ => false) (fun _ => false) 3 rfl⟩

/-- Helper: if the stop flag is never true, the poll loop never exits. -/
theorem pollLoop_none (stop : Nat → Bool) (h : ∀ m, stop m = false) :
    ∀ fuel i, pollLoop stop i fuel = none := by
  intro fuel
  induction fuel with
  | zero => intro i; rfl
  | succ n ih =>
    intro i
    simp only [pollLoop, h i, if_false]
    exact ih (i + 1)

/-- Helper: the poll loop exits exactly at the first poll index at which
the stop flag reads true. -/
theorem pollLoop_first (stop : Nat → Bool) (j : Nat) (hj : stop j = true)
    (hfirst : ∀ m, m < j → stop m = false) :
    ∀ fuel i, i ≤ j → j < i + fuel → pollLoop stop i fuel = some j := by
  intro fuel
  induction fuel with
  | zero => intro i _ h2; omega
  | succ n ih =>
    intro i h1 h2
    by_cases hij : i = j
    · subst hij
      simp only [pollLoop, hj, if_true]
    · have hlt : i < j := by omega
      simp only [pollLoop, hfirst i hlt, if_false]
      exact ih (i + 1) (by omega) (by omega)

/-- C6: with all subscriptions registered, if the stop flag first reads
true at poll `n` (it was false at every earlier poll), the poll loop of
`handle_events` exits exactly at poll `n` — within one poll interval of
the flag being set — and `handle_events` returns `Ok` with the
subscription list unchanged from the one registered before the loop (no
new subscriptions afterward); and for a flag that stays false the loop
never exits. -/
theorem handle_events_stop_C6 (regOk : String → Bool) (stop : Nat → Bool)
    (n fuel : Nat) (hreg : registerAll regOk = Except.ok signalNames)
    (hn : stop n = true) (hfirst : ∀ m, m < n → stop m = false)
    (hfuel : n < fuel) :
    handle_events regOk stop fuel = Except.ok (some signalNames) ∧
    pollLoop stop 0 fuel = some n ∧
    (∀ (g : Nat → Bool) fuel2, (∀ m, g m = false) → pollLoop g 0 fuel2 = none) := by
  have hp : pollLoop stop 0 fuel = some n :=
    pollLoop_first stop n hn hfirst fuel 0 (Nat.zero_le n) (by omega)
  refine ⟨?_, hp, fun g fuel2 hg => pollLoop_none g hg fuel2 0⟩
  simp only [handle_events, hreg, hp]

/-- Witness for C6 at a concrete run: every registration accepted, the
stop flag set from poll 1 on, five observed polls. -/
theorem handle_events_stop_C6_witness :
    handle_events (fun _ => true) (fun m => decide (0 < m)) 5
      = Except.ok (some signalNames) ∧
    pollLoop (fun m => decide (0 < m)) 0 5 = some 1 ∧
    (∀ (g : Nat → Bool) fuel2, (∀ m, g m = false) → pollLoop g 0 fuel2 = none) :=
  handle_events_stop_C6 (fun _ => true) (fun m => decide (0 < m)) 1 5 rfl rfl
    (fun m hm => by
      have h0 : m = 0 := Nat.lt_one_iff.mp hm
      subst h0
      rfl)
    (by decide)
